import Mathlib

/-!
Shallow embedding of the `logx` logging facade of qkbyte/go-zero
(package logx, file with SetUp/Disable/Field/write* functions), together
with proofs about its level gating, one-shot setup, disable/reset
lifecycle and structured field normalization.

Go machine integers that matter here (`logLevel`, `disableLog`,
`disableStat` are `uint32`) are modelled as `Nat`/`Bool`; the values the
program stores in them are tiny, so no wraparound arithmetic arises.
Runtime capabilities (resolving a caller location, capturing a stack
trace, the process hostname) are passed in explicitly.
-/

namespace logx

/-- Go `time.Duration`: a signed 64-bit count of nanoseconds.  The program
only ever formats durations, so we model it as an unbounded `Int`;
`fmt.Sprint` on a duration calls its `String` method, embedded below. -/
abbrev Duration := Int

def Microsecond : Nat := 1000

def Millisecond : Nat := 1000000

def Second : Nat := 1000000000

/-- Go `time.Duration.String`'s `fmtFrac`: consume `prec` low decimal
digits of `u`, rendering them as a fraction with trailing zeros omitted
(and the whole fraction, dot included, omitted when all digits are zero).
Returns the rendered fraction and the remaining integer part. -/
def fmtFrac : Nat → Nat → List Char → Bool → List Char × Nat
  | 0, u, acc, printed => (if printed then '.' :: acc else [], u)
  | n + 1, u, acc, printed =>
    let digit := u % 10
    let printed' := printed || decide (digit ≠ 0)
    let acc' := if printed' then Char.ofNat (48 + digit) :: acc else acc
    fmtFrac n (u / 10) acc' printed'

/-- Go `time.Duration.String` on a nonnegative number of nanoseconds:
sub-second durations use ns/µs/ms units with the fractional part trimmed,
larger durations use `[Nh][Nm]N[.frac]s`. -/
def durationStringCore (u : Nat) : String :=
  if u < Second then
    if u = 0 then "0s"
    else if u < Microsecond then
      toString u ++ "ns"
    else if u < Millisecond then
      let p := fmtFrac 3 u [] false
      toString p.2 ++ String.mk p.1 ++ "µs"
    else
      let p := fmtFrac 6 u [] false
      toString p.2 ++ String.mk p.1 ++ "ms"
  else
    let p := fmtFrac 9 u [] false
    let secPart := toString (p.2 % 60) ++ String.mk p.1 ++ "s"
    let u2 := p.2 / 60
    if u2 = 0 then secPart
    else
      let minPart := toString (u2 % 60) ++ "m" ++ secPart
      let u3 := u2 / 60
      if u3 = 0 then minPart else toString u3 ++ "h" ++ minPart

/-- Go `time.Duration.String`, sign included; this is what
`fmt.Sprint(val)` produces for a `time.Duration` value. -/
def durationString (d : Duration) : String :=
  if d < 0 then "-" ++ durationStringCore d.natAbs else durationStringCore d.natAbs

/-- A Go `error` value, observed through its `Error()` message. -/
structure GoError where
  message : String
deriving DecidableEq, Repr

/-- A Go value implementing `fmt.Stringer`, observed through its
`String()` rendering. -/
structure GoStringer where
  rendered : String
deriving DecidableEq, Repr

/-- A Go `time.Time` value, observed through its `fmt.Sprint` rendering
(`time.Time` implements `fmt.Stringer`, and `Field` only ever renders
times, never inspects them). -/
structure GoTime where
  rendered : String
deriving DecidableEq, Repr

/-- A Go `interface{}` value, tagged by which arm of `Field`'s type
switch its dynamic type selects.  Go checks the arms in source order, so
a value whose dynamic type matches several arms is routed to the first;
the constructor records that routing (e.g. a `time.Duration` also
implements `fmt.Stringer`, but the `time.Duration` arm comes first and
wins, which is why there is no separate stringer wrapping for it; a bare
`time.Time` has no arm of its own and is routed to the `fmt.Stringer`
arm, so it is represented as `goStringer`). -/
inductive GoValue where
  | goError : GoError → GoValue
  | goErrorSlice : List GoError → GoValue
  | goDuration : Duration → GoValue
  | goDurationSlice : List Duration → GoValue
  | goTimeSlice : List GoTime → GoValue
  | goStringer : GoStringer → GoValue
  | goStringerSlice : List GoStringer → GoValue
  | goString : String → GoValue
  | goStringSlice : List String → GoValue
  | goOther : Nat → GoValue
deriving DecidableEq, Repr

/-- `LogField` is a key-value pair that will be added to the log entry. -/
structure LogField where
  Key : String
  Value : GoValue
deriving DecidableEq, Repr

/-- `Field` returns a LogField for the given key and value, normalizing
the value by the type switch of the source: errors to their messages,
error slices to message slices, durations (and duration/time slices) to
their `fmt.Sprint` string forms, stringers to their renderings, all
remaining values unchanged. -/
def Field (key : String) (value : GoValue) : LogField :=
  match value with
  | .goError e => { Key := key, Value := .goString e.message }
  | .goErrorSlice es => { Key := key, Value := .goStringSlice (es.map GoError.message) }
  | .goDuration d => { Key := key, Value := .goString (durationString d) }
  | .goDurationSlice ds => { Key := key, Value := .goStringSlice (ds.map durationString) }
  | .goTimeSlice ts => { Key := key, Value := .goStringSlice (ts.map GoTime.rendered) }
  | .goStringer s => { Key := key, Value := .goString s.rendered }
  | .goStringerSlice ss => { Key := key, Value := .goStringSlice (ss.map GoStringer.rendered) }
  | .goString s => { Key := key, Value := .goString s }
  | .goStringSlice ss => { Key := key, Value := .goStringSlice ss }
  | .goOther n => { Key := key, Value := .goOther n }

/-! ## Severity levels, modes and encodings

The numeric level constants and the mode/level/encoding strings live in
the package's vars file, which is not among the given sources. -/

/-- Modelled from the spec: the numeric value of the debug threshold.
The level constants file is missing from the sources; the spec fixes the
order `Debug < Info < Error < Severe`, realized as 0, 1, 2, 3. -/
def DebugLevel : Nat := 0

/-- Modelled from the spec: the numeric value of the info threshold. -/
def InfoLevel : Nat := 1

/-- Modelled from the spec: the numeric value of the error threshold. -/
def ErrorLevel : Nat := 2

/-- Modelled from the spec: the numeric value of the severe threshold. -/
def SevereLevel : Nat := 3

/-- Modelled from the spec: the `Level` configuration strings
`debug|info|error|severe` recognized by `setupLogLevel`. -/
def levelDebug : String := "debug"

def levelInfo : String := "info"

def levelError : String := "error"

def levelSevere : String := "severe"

/-- Modelled from the spec: the `Mode` configuration strings; `console`
is the default arm of the switch, so only `file` and `volume` are
matched explicitly. -/
def fileMode : String := "file"

def volumeMode : String := "volume"

/-- Modelled from the spec: the `Encoding` configuration string `plain`
(anything else selects json). -/
def plainEncoding : String := "plain"

/-- Modelled from the spec: the numeric encoding tags stored in the
atomic `encoding` variable; only their distinctness matters. -/
def jsonEncodingType : Nat := 0

def plainEncodingType : Nat := 1

/-- Modelled from the spec: the key of the appended caller-location
field (spec §8 expects a `"caller"` field on emitted records). -/
def callerKey : String := "caller"

/-- `callerDepth` from the source: the fixed number of stack frames
walked above the public entry point to resolve the caller location. -/
def callerDepth : Nat := 4

/-! ## Writers and records -/

/-- The pluggable output backend held by the atomic writer holder.
`console` is the lazily materialized default (`newConsoleWriter`),
`file` a rotating file writer rooted at the given path, `nop` the
discard-everything writer installed by `Disable`, `custom` an arbitrary
caller-supplied writer as used with `SetWriter`. -/
inductive Writer where
  | console : Writer
  | file : String → Writer
  | nop : Writer
  | custom : Nat → Writer
deriving DecidableEq, Repr

/-- Severity classes of the `Writer` capability methods. -/
inductive Sev where
  | alert | debug | error | info | severe | slow | stack | stat
deriving DecidableEq, Repr

/-- One record handed to the current backend by a facade call: which
severity method was invoked, on which writer, with which message value
and which field list. -/
structure Record where
  sev : Sev
  target : Writer
  msg : GoValue
  fields : List LogField
deriving DecidableEq, Repr

/-- Modelled from the spec: whether a record delivered to a backend
produces output.  The no-op backend (the writer type stored by
`Disable`, not among the given sources) discards every record; console
and file backends write a formatted line per record. -/
def emitsOutput (r : Record) : Bool := r.target ≠ Writer.nop

/-- Runtime capabilities consumed by the facade: `getCaller n` is the
file:line text of the frame `n` levels up the stack, `stack` the
captured process stack trace text (`debug.Stack()`). -/
structure RuntimeEnv where
  getCaller : Nat → String
  stack : String

/-! ## Process-wide logging state

The package-level variables of the source: `logLevel`, `encoding`,
`disableLog`, `disableStat`, `timeFormat`, the atomic writer holder and
the `sync.Once` setup gate, gathered into one explicit state record. -/

structure LogState where
  logLevel : Nat
  encoding : Nat
  disableLog : Bool
  disableStat : Bool
  timeFormat : String
  writer : Option Writer
  setupDone : Bool
deriving DecidableEq, Repr

/-- `SetLevel` sets the logging level. It can be used to suppress some logs. -/
def SetLevel (level : Nat) (s : LogState) : LogState :=
  { s with logLevel := level }

/-- `SetWriter` sets the logging writer, unless logging was disabled. -/
def SetWriter (w : Writer) (s : LogState) : LogState :=
  if s.disableLog = false then { s with writer := some w } else s

/-- `Disable` disables the logging: sets the disabled flag and stores
the no-op writer. -/
def Disable (s : LogState) : LogState :=
  { s with disableLog := true, writer := some Writer.nop }

/-- `DisableStat` disables the stat logs. -/
def DisableStat (s : LogState) : LogState :=
  { s with disableStat := true }

/-- `Reset` clears the writer (an atomic swap with nil) and returns the
writer that was installed. -/
def Reset (s : LogState) : LogState × Option Writer :=
  ({ s with writer := none }, s.writer)

/-- `getWriter`: the current writer, lazily materializing the default
console writer through the holder's store-if-nil operation. -/
def getWriter (s : LogState) : LogState × Writer :=
  match s.writer with
  | some w => (s, w)
  | none => ({ s with writer := some Writer.console }, Writer.console)

/-- `shallLog`: the level gate, `logLevel <= level`. -/
def shallLog (s : LogState) (level : Nat) : Bool :=
  s.logLevel ≤ level

/-- `shallLogStat`: the stat gate, `disableStat == 0`. -/
def shallLogStat (s : LogState) : Bool :=
  s.disableStat = false

/-- `addCaller` appends the caller-location field to the given fields. -/
def addCaller (env : RuntimeEnv) (fields : List LogField) : List LogField :=
  fields ++ [Field callerKey (.goString (env.getCaller callerDepth))]

/-! ## The leveled write helpers

Each returns the updated state (getWriter may install the default
console writer) together with the list of records handed to the backend
by this call: one record when the gate passes, none otherwise. -/

def writeDebug (env : RuntimeEnv) (val : GoValue) (fields : List LogField)
    (s : LogState) : LogState × List Record :=
  if shallLog s DebugLevel then
    ((getWriter s).1,
      [{ sev := .debug, target := (getWriter s).2, msg := val,
         fields := addCaller env fields }])
  else (s, [])

def writeError (env : RuntimeEnv) (val : GoValue) (fields : List LogField)
    (s : LogState) : LogState × List Record :=
  if shallLog s ErrorLevel then
    ((getWriter s).1,
      [{ sev := .error, target := (getWriter s).2, msg := val,
         fields := addCaller env fields }])
  else (s, [])

def writeInfo (env : RuntimeEnv) (val : GoValue) (fields : List LogField)
    (s : LogState) : LogState × List Record :=
  if shallLog s InfoLevel then
    ((getWriter s).1,
      [{ sev := .info, target := (getWriter s).2, msg := val,
         fields := addCaller env fields }])
  else (s, [])

/-- `writeSevere` forwards the message with the captured stack trace
appended after a newline (`fmt.Sprintf` with a `%s\n%s` layout); no
fields are attached. -/
def writeSevere (env : RuntimeEnv) (msg : String) (s : LogState) :
    LogState × List Record :=
  if shallLog s SevereLevel then
    ((getWriter s).1,
      [{ sev := .severe, target := (getWriter s).2,
         msg := .goString (msg ++ "\n" ++ env.stack), fields := [] }])
  else (s, [])

def writeSlow (env : RuntimeEnv) (val : GoValue) (fields : List LogField)
    (s : LogState) : LogState × List Record :=
  if shallLog s ErrorLevel then
    ((getWriter s).1,
      [{ sev := .slow, target := (getWriter s).2, msg := val,
         fields := addCaller env fields }])
  else (s, [])

/-- `writeStack` forwards the message with the captured stack trace
appended after a newline; gated at the error threshold. -/
def writeStack (env : RuntimeEnv) (msg : String) (s : LogState) :
    LogState × List Record :=
  if shallLog s ErrorLevel then
    ((getWriter s).1,
      [{ sev := .stack, target := (getWriter s).2,
         msg := .goString (msg ++ "\n" ++ env.stack), fields := [] }])
  else (s, [])

/-- `writeStat` is gated by the stat flag and the info threshold
together; it attaches only the caller field. -/
def writeStat (env : RuntimeEnv) (msg : String) (s : LogState) :
    LogState × List Record :=
  if shallLogStat s && shallLog s InfoLevel then
    ((getWriter s).1,
      [{ sev := .stat, target := (getWriter s).2, msg := .goString msg,
         fields := addCaller env [] }])
  else (s, [])

/-! ## Public severity entry points

The plain and printf-style variants hand `fmt.Sprint`/`fmt.Sprintf`
results to the write helpers; the standard library's formatting of the
variadic arguments is outside the embedding, so these take the already
formatted message string.  The `v` variants forward an arbitrary value,
the `w` variants a message plus fields. -/

/-- `Alert` alerts v in alert level, and the message is written to the
error log.  Note the source forwards directly to the writer, with no
level gate. -/
def Alert (v : String) (s : LogState) : LogState × List Record :=
  ((getWriter s).1,
    [{ sev := .alert, target := (getWriter s).2, msg := .goString v, fields := [] }])

def Debug (env : RuntimeEnv) (msg : String) (s : LogState) : LogState × List Record :=
  writeDebug env (.goString msg) [] s

def Debugf (env : RuntimeEnv) (msg : String) (s : LogState) : LogState × List Record :=
  writeDebug env (.goString msg) [] s

def Debugv (env : RuntimeEnv) (v : GoValue) (s : LogState) : LogState × List Record :=
  writeDebug env v [] s

def Debugw (env : RuntimeEnv) (msg : String) (fields : List LogField)
    (s : LogState) : LogState × List Record :=
  writeDebug env (.goString msg) fields s

def Error (env : RuntimeEnv) (msg : String) (s : LogState) : LogState × List Record :=
  writeError env (.goString msg) [] s

def Errorf (env : RuntimeEnv) (msg : String) (s : LogState) : LogState × List Record :=
  writeError env (.goString msg) [] s

def ErrorStack (env : RuntimeEnv) (msg : String) (s : LogState) : LogState × List Record :=
  writeStack env msg s

def ErrorStackf (env : RuntimeEnv) (msg : String) (s : LogState) : LogState × List Record :=
  writeStack env msg s

def Errorv (env : RuntimeEnv) (v : GoValue) (s : LogState) : LogState × List Record :=
  writeError env v [] s

def Errorw (env : RuntimeEnv) (msg : String) (fields : List LogField)
    (s : LogState) : LogState × List Record :=
  writeError env (.goString msg) fields s

def Info (env : RuntimeEnv) (msg : String) (s : LogState) : LogState × List Record :=
  writeInfo env (.goString msg) [] s

def Infof (env : RuntimeEnv) (msg : String) (s : LogState) : LogState × List Record :=
  writeInfo env (.goString msg) [] s

def Infov (env : RuntimeEnv) (v : GoValue) (s : LogState) : LogState × List Record :=
  writeInfo env v [] s

def Infow (env : RuntimeEnv) (msg : String) (fields : List LogField)
    (s : LogState) : LogState × List Record :=
  writeInfo env (.goString msg) fields s

def Severe (env : RuntimeEnv) (msg : String) (s : LogState) : LogState × List Record :=
  writeSevere env msg s

def Severef (env : RuntimeEnv) (msg : String) (s : LogState) : LogState × List Record :=
  writeSevere env msg s

def Slow (env : RuntimeEnv) (msg : String) (s : LogState) : LogState × List Record :=
  writeSlow env (.goString msg) [] s

def Slowf (env : RuntimeEnv) (msg : String) (s : LogState) : LogState × List Record :=
  writeSlow env (.goString msg) [] s

def Slowv (env : RuntimeEnv) (v : GoValue) (s : LogState) : LogState × List Record :=
  writeSlow env v [] s

def Sloww (env : RuntimeEnv) (msg : String) (fields : List LogField)
    (s : LogState) : LogState × List Record :=
  writeSlow env (.goString msg) fields s

def Stat (env : RuntimeEnv) (msg : String) (s : LogState) : LogState × List Record :=
  writeStat env msg s

def Statf (env : RuntimeEnv) (msg : String) (s : LogState) : LogState × List Record :=
  writeStat env msg s

/-! ## Go `path.Join` / `path.Clean`

`setupWithVolume` builds the effective path with `path.Join(c.Path,
c.ServiceName, hostname)`.  Go's `Join` concatenates the non-empty
elements with `/` and applies `Clean`; `Clean` is embedded here in its
segment-stack formulation: split on `/`, drop empty and `.` segments,
let `..` pop a previous segment (or accumulate at the front of a
relative path, or vanish at the root of a rooted one). -/

def splitOnSlashAux : List Char → List Char → List String
  | [], acc => [String.mk acc.reverse]
  | c :: rest, acc =>
    if c = '/' then String.mk acc.reverse :: splitOnSlashAux rest []
    else splitOnSlashAux rest (c :: acc)

def splitOnSlash (s : String) : List String :=
  splitOnSlashAux s.data []

def cleanSegsAux (rooted : Bool) : List String → List String → List String
  | [], stack => stack.reverse
  | seg :: rest, stack =>
    if seg = "" || seg = "." then cleanSegsAux rooted rest stack
    else if seg = ".." then
      match stack with
      | [] =>
        if rooted then cleanSegsAux rooted rest []
        else cleanSegsAux rooted rest [".."]
      | top :: stack' =>
        if top = ".." then cleanSegsAux rooted rest (".." :: top :: stack')
        else cleanSegsAux rooted rest stack'
    else cleanSegsAux rooted rest (seg :: stack)

/-- Reassemble the cleaned segments: rooted paths get the leading
slash back, and an empty relative result collapses to `"."`. -/
def pathCleanCore (rooted : Bool) (segs : List String) : String :=
  if rooted then "/" ++ String.intercalate "/" (cleanSegsAux rooted segs [])
  else if String.intercalate "/" (cleanSegsAux rooted segs []) = "" then "."
  else String.intercalate "/" (cleanSegsAux rooted segs [])

/-- Go `path.Clean`. -/
def pathClean (p : String) : String :=
  if p = "" then "."
  else pathCleanCore (p.data.head? = some '/') (splitOnSlash p)

/-- Go `path.Join`: all-empty input gives the empty string, otherwise
the non-empty elements joined with `/` and cleaned. -/
def pathJoin (elems : List String) : String :=
  let ne := elems.filter (fun e => ¬ e = "")
  if ne = [] then "" else pathClean (String.intercalate "/" ne)

/-! ## Setup -/

/-- `LogConf` is the logging configuration consumed by `SetUp`.
Modelled from the spec: the config structure itself is not among the
given sources; the spec lists the recognized options `Mode`, `Path`,
`ServiceName`, `Level`, `Encoding`, `TimeFormat` (the rotation tunables
do not affect the properties proved here). -/
structure LogConf where
  ServiceName : String
  Mode : String
  Encoding : String
  TimeFormat : String
  Path : String
  Level : String
deriving DecidableEq, Repr

/-- Modelled from the spec: the two descriptive setup error values
(`ErrLogPathNotSet`, `ErrLogServiceNameNotSet`), declared in a vars
file that is not among the given sources. -/
inductive SetupErr where
  | logPathNotSet : SetupErr
  | logServiceNameNotSet : SetupErr
deriving DecidableEq, Repr

/-- Modelled from the spec: `newFileWriter` (the rotating file writer
constructor, not among the given sources).  A missing required path in
file mode fails the setup call with the descriptive log-path-not-set
error; otherwise a file-backed writer rooted at the given path is
produced. -/
def newFileWriter (c : LogConf) : Except SetupErr Writer :=
  if c.Path = "" then .error .logPathNotSet else .ok (.file c.Path)

/-- `setupLogLevel` parses the level string; an unrecognized string
leaves the level untouched. -/
def setupLogLevel (c : LogConf) (s : LogState) : LogState :=
  if c.Level = levelDebug then SetLevel DebugLevel s
  else if c.Level = levelInfo then SetLevel InfoLevel s
  else if c.Level = levelError then SetLevel ErrorLevel s
  else if c.Level = levelSevere then SetLevel SevereLevel s
  else s

def setupWithConsole (s : LogState) : LogState :=
  SetWriter Writer.console s

def setupWithFiles (c : LogConf) (s : LogState) : LogState × Option SetupErr :=
  match newFileWriter c with
  | .error e => (s, some e)
  | .ok w => (SetWriter w s, none)

/-- `setupWithVolume` requires a service name and derives the path
`path.Join(c.Path, c.ServiceName, hostname)`. -/
def setupWithVolume (hostname : String) (c : LogConf) (s : LogState) :
    LogState × Option SetupErr :=
  if c.ServiceName = "" then (s, some .logServiceNameNotSet)
  else setupWithFiles { c with Path := pathJoin [c.Path, c.ServiceName, hostname] } s

/-- `SetUp` sets up the logx package.  The `sync.Once` gate makes every
call after the first return nil immediately; the first call parses the
level, the time format and the encoding and selects the output mode
(console is the default arm). -/
def SetUp (hostname : String) (c : LogConf) (s : LogState) :
    LogState × Option SetupErr :=
  if s.setupDone then (s, none)
  else
    let s1 := { setupLogLevel c s with setupDone := true }
    let s2 := if 0 < c.TimeFormat.length then { s1 with timeFormat := c.TimeFormat } else s1
    let s3 :=
      if c.Encoding = plainEncoding then { s2 with encoding := plainEncodingType }
      else { s2 with encoding := jsonEncodingType }
    if c.Mode = fileMode then setupWithFiles c s3
    else if c.Mode = volumeMode then setupWithVolume hostname c s3
    else (setupWithConsole s3, none)

/-- `Close` swaps the writer with nil and closes the one that was
installed (closing itself is an I/O effect outside the embedding). -/
def Close (s : LogState) : LogState × Option Writer :=
  ({ s with writer := none }, s.writer)

/-! ## Call traces

An `Op` is one invocation of a public write entry point or of
`SetWriter`; `run` executes a list of them, collecting every record
handed to a backend.  This is the vocabulary for the post-`Disable`
property: any volume of subsequent calls produces zero output. -/

inductive Op where
  | opAlert : String → Op
  | opDebug : String → Op
  | opDebugf : String → Op
  | opDebugv : GoValue → Op
  | opDebugw : String → List LogField → Op
  | opError : String → Op
  | opErrorf : String → Op
  | opErrorStack : String → Op
  | opErrorStackf : String → Op
  | opErrorv : GoValue → Op
  | opErrorw : String → List LogField → Op
  | opInfo : String → Op
  | opInfof : String → Op
  | opInfov : GoValue → Op
  | opInfow : String → List LogField → Op
  | opSevere : String → Op
  | opSeveref : String → Op
  | opSlow : String → Op
  | opSlowf : String → Op
  | opSlowv : GoValue → Op
  | opSloww : String → List LogField → Op
  | opStat : String → Op
  | opStatf : String → Op
  | opSetWriter : Writer → Op

def step (env : RuntimeEnv) (op : Op) (s : LogState) : LogState × List Record :=
  match op with
  | .opAlert v => Alert v s
  | .opDebug m => Debug env m s
  | .opDebugf m => Debugf env m s
  | .opDebugv v => Debugv env v s
  | .opDebugw m fs => Debugw env m fs s
  | .opError m => Error env m s
  | .opErrorf m => Errorf env m s
  | .opErrorStack m => ErrorStack env m s
  | .opErrorStackf m => ErrorStackf env m s
  | .opErrorv v => Errorv env v s
  | .opErrorw m fs => Errorw env m fs s
  | .opInfo m => Info env m s
  | .opInfof m => Infof env m s
  | .opInfov v => Infov env v s
  | .opInfow m fs => Infow env m fs s
  | .opSevere m => Severe env m s
  | .opSeveref m => Severef env m s
  | .opSlow m => Slow env m s
  | .opSlowf m => Slowf env m s
  | .opSlowv v => Slowv env v s
  | .opSloww m fs => Sloww env m fs s
  | .opStat m => Stat env m s
  | .opStatf m => Statf env m s
  | .opSetWriter w => (SetWriter w s, [])

def run (env : RuntimeEnv) (ops : List Op) (s : LogState) : LogState × List Record :=
  match ops with
  | [] => (s, [])
  | op :: rest =>
    let p := step env op s
    let q := run env rest p.1
    (q.1, p.2 ++ q.2)

/-! ## Concrete fixtures used by witness statements -/

def sampleEnv : RuntimeEnv :=
  { getCaller := fun _ => "caller.go:42", stack := "STACKTRACE" }

def sampleConf : LogConf :=
  { ServiceName := "svc", Mode := "volume", Encoding := "", TimeFormat := "",
    Path := "/var/log", Level := "info" }

def sampleState : LogState :=
  { logLevel := 1, encoding := 0, disableLog := false, disableStat := false,
    timeFormat := "t", writer := some .console, setupDone := true }

def sampleFreshState : LogState :=
  { logLevel := 1, encoding := 0, disableLog := false, disableStat := false,
    timeFormat := "t", writer := none, setupDone := false }

/-! ## Helper lemmas -/

/-! Sanity checks of the embedded Go formatting and path algorithms. -/

example : durationString (1500 * 1000000) = "1.5s" := by decide

example : durationString 1500 = "1.5µs" := by decide

example : durationString (-90 * 1000000000) = "-1m30s" := by decide

example : durationString (3661 * 1000000000) = "1h1m1s" := by decide

example : durationString 500 = "500ns" := by decide

example : pathJoin ["/var/log", "svc", "host-1"] = "/var/log/svc/host-1" := by decide

example : pathJoin ["a//b", "", "c/./d", "e/../f"] = "a/b/c/d/f" := by decide

example : pathClean "/../a" = "/a" := by decide

example : pathClean "a/../../b" = "../b" := by decide

theorem writeDebug_numRecords (env : RuntimeEnv) (v : GoValue)
    (fields : List LogField) (s : LogState) :
    (writeDebug env v fields s).2.length = if s.logLevel ≤ DebugLevel then 1 else 0 := by
  by_cases h : s.logLevel ≤ DebugLevel <;> simp [writeDebug, shallLog, h]

theorem writeInfo_numRecords (env : RuntimeEnv) (v : GoValue)
    (fields : List LogField) (s : LogState) :
    (writeInfo env v fields s).2.length = if s.logLevel ≤ InfoLevel then 1 else 0 := by
  by_cases h : s.logLevel ≤ InfoLevel <;> simp [writeInfo, shallLog, h]

theorem writeError_numRecords (env : RuntimeEnv) (v : GoValue)
    (fields : List LogField) (s : LogState) :
    (writeError env v fields s).2.length = if s.logLevel ≤ ErrorLevel then 1 else 0 := by
  by_cases h : s.logLevel ≤ ErrorLevel <;> simp [writeError, shallLog, h]

theorem writeSevere_numRecords (env : RuntimeEnv) (msg : String) (s : LogState) :
    (writeSevere env msg s).2.length = if s.logLevel ≤ SevereLevel then 1 else 0 := by
  by_cases h : s.logLevel ≤ SevereLevel <;> simp [writeSevere, shallLog, h]

theorem writeStack_numRecords (env : RuntimeEnv) (msg : String) (s : LogState) :
    (writeStack env msg s).2.length = if s.logLevel ≤ ErrorLevel then 1 else 0 := by
  by_cases h : s.logLevel ≤ ErrorLevel <;> simp [writeStack, shallLog, h]

theorem writeSlow_numRecords (env : RuntimeEnv) (v : GoValue)
    (fields : List LogField) (s : LogState) :
    (writeSlow env v fields s).2.length = if s.logLevel ≤ ErrorLevel then 1 else 0 := by
  by_cases h : s.logLevel ≤ ErrorLevel <;> simp [writeSlow, shallLog, h]

theorem writeStat_numRecords (env : RuntimeEnv) (msg : String) (s : LogState) :
    (writeStat env msg s).2.length =
      if s.disableStat = false ∧ s.logLevel ≤ InfoLevel then 1 else 0 := by
  by_cases h1 : s.disableStat = false <;> by_cases h2 : s.logLevel ≤ InfoLevel <;>
    simp [writeStat, shallLogStat, shallLog, h1, h2]

/-! ## Claim theorems -/

/-- C1: every leveled write entry point forwards a record to the backend
if and only if the configured threshold is numerically at most the
call's severity, with the thresholds ordered Debug < Info < Error <
Severe; the Debug variants are gated at Debug, the Info variants at
Info, the Error variants at Error, the Severe variants at Severe; Stat
and Statf forward iff stat logging is enabled and the threshold is at
most Info; a call below the threshold forwards nothing. -/
theorem levelGate_forwarding (env : RuntimeEnv) (s : LogState) (msg : String)
    (v : GoValue) (fields : List LogField) :
    (DebugLevel < InfoLevel ∧ InfoLevel < ErrorLevel ∧ ErrorLevel < SevereLevel) ∧
    (Debug env msg s).2.length = (if s.logLevel ≤ DebugLevel then 1 else 0) ∧
    (Debugf env msg s).2.length = (if s.logLevel ≤ DebugLevel then 1 else 0) ∧
    (Debugv env v s).2.length = (if s.logLevel ≤ DebugLevel then 1 else 0) ∧
    (Debugw env msg fields s).2.length = (if s.logLevel ≤ DebugLevel then 1 else 0) ∧
    (Info env msg s).2.length = (if s.logLevel ≤ InfoLevel then 1 else 0) ∧
    (Infof env msg s).2.length = (if s.logLevel ≤ InfoLevel then 1 else 0) ∧
    (Infov env v s).2.length = (if s.logLevel ≤ InfoLevel then 1 else 0) ∧
    (Infow env msg fields s).2.length = (if s.logLevel ≤ InfoLevel then 1 else 0) ∧
    (Error env msg s).2.length = (if s.logLevel ≤ ErrorLevel then 1 else 0) ∧
    (Errorf env msg s).2.length = (if s.logLevel ≤ ErrorLevel then 1 else 0) ∧
    (Errorv env v s).2.length = (if s.logLevel ≤ ErrorLevel then 1 else 0) ∧
    (Errorw env msg fields s).2.length = (if s.logLevel ≤ ErrorLevel then 1 else 0) ∧
    (ErrorStack env msg s).2.length = (if s.logLevel ≤ ErrorLevel then 1 else 0) ∧
    (ErrorStackf env msg s).2.length = (if s.logLevel ≤ ErrorLevel then 1 else 0) ∧
    (Severe env msg s).2.length = (if s.logLevel ≤ SevereLevel then 1 else 0) ∧
    (Severef env msg s).2.length = (if s.logLevel ≤ SevereLevel then 1 else 0) ∧
    (Stat env msg s).2.length =
      (if s.disableStat = false ∧ s.logLevel ≤ InfoLevel then 1 else 0) ∧
    (Statf env msg s).2.length =
      (if s.disableStat = false ∧ s.logLevel ≤ InfoLevel then 1 else 0) :=
  ⟨by decide,
    writeDebug_numRecords env _ _ s, writeDebug_numRecords env _ _ s,
    writeDebug_numRecords env _ _ s, writeDebug_numRecords env _ _ s,
    writeInfo_numRecords env _ _ s, writeInfo_numRecords env _ _ s,
    writeInfo_numRecords env _ _ s, writeInfo_numRecords env _ _ s,
    writeError_numRecords env _ _ s, writeError_numRecords env _ _ s,
    writeError_numRecords env _ _ s, writeError_numRecords env _ _ s,
    writeStack_numRecords env _ s, writeStack_numRecords env _ s,
    writeSevere_numRecords env _ s, writeSevere_numRecords env _ s,
    writeStat_numRecords env _ s, writeStat_numRecords env _ s⟩

/-- C10: the slow-log entry points Slow, Slowf, Slowv and Sloww are
gated at the Error threshold, not at Info or a threshold of their own:
a slow record is forwarded iff the configured threshold is at most
ErrorLevel, so a severe threshold suppresses slow logs while an error
threshold still emits them. -/
theorem slow_gated_at_error (env : RuntimeEnv) (s : LogState) (msg : String)
    (v : GoValue) (fields : List LogField) :
    (Slow env msg s).2.length = (if s.logLevel ≤ ErrorLevel then 1 else 0) ∧
    (Slowf env msg s).2.length = (if s.logLevel ≤ ErrorLevel then 1 else 0) ∧
    (Slowv env v s).2.length = (if s.logLevel ≤ ErrorLevel then 1 else 0) ∧
    (Sloww env msg fields s).2.length = (if s.logLevel ≤ ErrorLevel then 1 else 0) ∧
    (InfoLevel < ErrorLevel ∧ ErrorLevel < SevereLevel) ∧
    (Slow env msg (SetLevel SevereLevel s)).2 = [] ∧
    (Sloww env msg fields (SetLevel ErrorLevel s)).2.length = 1 := by
  refine ⟨writeSlow_numRecords env _ _ s, writeSlow_numRecords env _ _ s,
    writeSlow_numRecords env _ _ s, writeSlow_numRecords env _ _ s,
    by decide, ?_, ?_⟩
  · simp [Slow, writeSlow, shallLog, SetLevel, SevereLevel, ErrorLevel]
  · simp [Sloww, writeSlow, shallLog, SetLevel, ErrorLevel]

theorem SetWriter_setupDone (w : Writer) (s : LogState) :
    (SetWriter w s).setupDone = s.setupDone := by
  unfold SetWriter; split <;> rfl

theorem SetWriter_disableLog (w : Writer) (s : LogState) :
    (SetWriter w s).disableLog = s.disableLog := by
  unfold SetWriter; split <;> rfl

theorem setupLogLevel_setupDone (c : LogConf) (s : LogState) :
    (setupLogLevel c s).setupDone = s.setupDone := by
  unfold setupLogLevel SetLevel; split_ifs <;> rfl

theorem setupLogLevel_writer (c : LogConf) (s : LogState) :
    (setupLogLevel c s).writer = s.writer := by
  unfold setupLogLevel SetLevel; split_ifs <;> rfl

theorem setupLogLevel_disableLog (c : LogConf) (s : LogState) :
    (setupLogLevel c s).disableLog = s.disableLog := by
  unfold setupLogLevel SetLevel; split_ifs <;> rfl

theorem setupWithFiles_setupDone (c : LogConf) (s : LogState) :
    (setupWithFiles c s).1.setupDone = s.setupDone := by
  by_cases hp : c.Path = "" <;>
    simp [setupWithFiles, newFileWriter, hp, SetWriter_setupDone]

theorem setupWithVolume_setupDone (h : String) (c : LogConf) (s : LogState) :
    (setupWithVolume h c s).1.setupDone = s.setupDone := by
  by_cases hs : c.ServiceName = "" <;>
    simp [setupWithVolume, hs, setupWithFiles_setupDone]

theorem setUp_setupDone (h : String) (c : LogConf) (s : LogState) :
    (SetUp h c s).1.setupDone = true := by
  unfold SetUp
  by_cases hd : s.setupDone = true
  · simp [hd]
  · simp only [hd, if_false, Bool.false_eq_true]
    split_ifs <;>
      simp [setupWithFiles_setupDone, setupWithVolume_setupDone,
        setupWithConsole, SetWriter_setupDone, setupLogLevel_setupDone]

theorem setUp_noop (h : String) (c : LogConf) (s : LogState)
    (hd : s.setupDone = true) : SetUp h c s = (s, none) := by
  unfold SetUp; simp [hd]

/-- C3 counterexample: the claim says an Alert call forwards a record
only if its severity passes the current level threshold; but with the
threshold set to 99, strictly above every severity constant, `Alert`
still forwards its record to the backend — the source forwards directly
to the writer without consulting `shallLog`. -/
theorem alert_bypasses_gate_cex :
    (Alert "boom"
        { logLevel := 99, encoding := 0, disableLog := false, disableStat := false,
          timeFormat := "", writer := some .console, setupDone := true }).2 =
      [{ sev := .alert, target := .console, msg := .goString "boom", fields := [] }] ∧
    DebugLevel < 99 ∧ InfoLevel < 99 ∧ ErrorLevel < 99 ∧ SevereLevel < 99 := by
  exact ⟨rfl, by decide, by decide, by decide, by decide⟩

/-- C3 amended: Alert does not consult the level gate — it forwards
exactly one record to the current backend unconditionally, whatever the
configured threshold is (the other severity entry points do consult the
gate, as proved for C1). -/
theorem alert_unconditional (v : String) (s : LogState) :
    (Alert v s).2 =
      [{ sev := .alert, target := (getWriter s).2, msg := .goString v, fields := [] }] :=
  rfl

/-- C6: `Field key value` normalizes by the arm of the type switch its
dynamic type selects: an error becomes its message string; a slice of
errors becomes the slice of their messages, same length and order; a
duration becomes its human-readable string (1500ms renders as "1.5s");
slices of durations and of timestamps become slices of their string
forms; a Stringer — and element-wise a slice of Stringers — is rendered
via its String method; any other value passes through unchanged; the
key is preserved in every case. -/
theorem field_normalization (key : String) (e : GoError) (es : List GoError)
    (d : Duration) (ds : List Duration) (ts : List GoTime) (st : GoStringer)
    (sts : List GoStringer) (str0 : String) (strs : List String) (n : Nat)
    (v : GoValue) :
    Field key (.goError e) = { Key := key, Value := .goString e.message } ∧
    Field key (.goErrorSlice es) =
      { Key := key, Value := .goStringSlice (es.map GoError.message) } ∧
    (es.map GoError.message).length = es.length ∧
    Field key (.goDuration d) = { Key := key, Value := .goString (durationString d) } ∧
    durationString (1500 * 1000000) = "1.5s" ∧
    Field key (.goDurationSlice ds) =
      { Key := key, Value := .goStringSlice (ds.map durationString) } ∧
    Field key (.goTimeSlice ts) =
      { Key := key, Value := .goStringSlice (ts.map GoTime.rendered) } ∧
    Field key (.goStringer st) = { Key := key, Value := .goString st.rendered } ∧
    Field key (.goStringerSlice sts) =
      { Key := key, Value := .goStringSlice (sts.map GoStringer.rendered) } ∧
    Field key (.goString str0) = { Key := key, Value := .goString str0 } ∧
    Field key (.goStringSlice strs) = { Key := key, Value := .goStringSlice strs } ∧
    Field key (.goOther n) = { Key := key, Value := .goOther n } ∧
    (Field key v).Key = key ∧
    Field "k" (.goErrorSlice [{ message := "e1" }, { message := "e2" }]) =
      { Key := "k", Value := .goStringSlice ["e1", "e2"] } :=
  ⟨rfl, rfl, by simp, rfl, by decide, rfl, rfl, rfl, rfl, rfl, rfl, rfl,
    by cases v <;> rfl, by decide⟩

/-- C9: for every Severe/Severef and ErrorStack/ErrorStackf call that
passes its level gate (Severe at the severe threshold, ErrorStack at
the error threshold), the message forwarded to the backend is the
formatted primary message followed by a newline and the captured
process stack trace; below the gate nothing is forwarded. -/
theorem severe_stack_append (env : RuntimeEnv) (s : LogState) (msg : String) :
    ((Severe env msg s).2.map Record.msg =
      if s.logLevel ≤ SevereLevel then [.goString (msg ++ "\n" ++ env.stack)] else []) ∧
    ((Severef env msg s).2.map Record.msg =
      if s.logLevel ≤ SevereLevel then [.goString (msg ++ "\n" ++ env.stack)] else []) ∧
    ((ErrorStack env msg s).2.map Record.msg =
      if s.logLevel ≤ ErrorLevel then [.goString (msg ++ "\n" ++ env.stack)] else []) ∧
    ((ErrorStackf env msg s).2.map Record.msg =
      if s.logLevel ≤ ErrorLevel then [.goString (msg ++ "\n" ++ env.stack)] else []) := by
  by_cases h1 : s.logLevel ≤ SevereLevel <;> by_cases h2 : s.logLevel ≤ ErrorLevel <;>
    simp [Severe, Severef, ErrorStack, ErrorStackf, writeSevere, writeStack,
      shallLog, h1, h2]

/-- C8 counterexample: the claim says every write call that passes the
level gate forwards a record carrying the caller-supplied fields
followed by exactly one appended caller-location field; but a `Severe`
call at a passing threshold forwards a record whose field list is empty
— no caller-location field is attached on the severe path. -/
theorem severe_no_caller_field_cex :
    shallLog
        { logLevel := 3, encoding := 0, disableLog := false, disableStat := false,
          timeFormat := "", writer := some .console, setupDone := true }
        SevereLevel = true ∧
    (Severe { getCaller := fun _ => "caller.go:10", stack := "STACK" } "boom"
        { logLevel := 3, encoding := 0, disableLog := false, disableStat := false,
          timeFormat := "", writer := some .console, setupDone := true }).2 =
      [{ sev := .severe, target := .console, msg := .goString "boom\nSTACK",
         fields := [] }] := by
  exact ⟨rfl, rfl⟩

/-- C8 amended: every field-carrying write call (the structured debug,
info, error, slow and stat paths) that passes its gate forwards exactly
one record whose fields are the caller-supplied fields in their
original order followed by exactly one appended caller-location field
resolved `callerDepth` frames above the entry point; the severe and
error-stack paths forward exactly one record too, but with an empty
field list (no caller field). -/
theorem gated_write_record_shape (env : RuntimeEnv) (s : LogState) (msg : String)
    (fields : List LogField) :
    ((Debugw env msg fields s).2 =
      if s.logLevel ≤ DebugLevel then
        [{ sev := .debug, target := (getWriter s).2, msg := .goString msg,
           fields := fields ++
             [{ Key := callerKey, Value := .goString (env.getCaller callerDepth) }] }]
      else []) ∧
    ((Infow env msg fields s).2 =
      if s.logLevel ≤ InfoLevel then
        [{ sev := .info, target := (getWriter s).2, msg := .goString msg,
           fields := fields ++
             [{ Key := callerKey, Value := .goString (env.getCaller callerDepth) }] }]
      else []) ∧
    ((Errorw env msg fields s).2 =
      if s.logLevel ≤ ErrorLevel then
        [{ sev := .error, target := (getWriter s).2, msg := .goString msg,
           fields := fields ++
             [{ Key := callerKey, Value := .goString (env.getCaller callerDepth) }] }]
      else []) ∧
    ((Sloww env msg fields s).2 =
      if s.logLevel ≤ ErrorLevel then
        [{ sev := .slow, target := (getWriter s).2, msg := .goString msg,
           fields := fields ++
             [{ Key := callerKey, Value := .goString (env.getCaller callerDepth) }] }]
      else []) ∧
    ((Stat env msg s).2 =
      if s.disableStat = false ∧ s.logLevel ≤ InfoLevel then
        [{ sev := .stat, target := (getWriter s).2, msg := .goString msg,
           fields :=
             [{ Key := callerKey, Value := .goString (env.getCaller callerDepth) }] }]
      else []) ∧
    ((Severe env msg s).2 =
      if s.logLevel ≤ SevereLevel then
        [{ sev := .severe, target := (getWriter s).2,
           msg := .goString (msg ++ "\n" ++ env.stack), fields := [] }]
      else []) ∧
    ((ErrorStack env msg s).2 =
      if s.logLevel ≤ ErrorLevel then
        [{ sev := .stack, target := (getWriter s).2,
           msg := .goString (msg ++ "\n" ++ env.stack), fields := [] }]
      else []) := by
  by_cases h0 : s.logLevel ≤ DebugLevel <;>
    by_cases h1 : s.logLevel ≤ InfoLevel <;>
      by_cases h2 : s.logLevel ≤ ErrorLevel <;>
        by_cases h3 : s.logLevel ≤ SevereLevel <;>
          by_cases h4 : s.disableStat = false <;>
            simp [Debugw, Infow, Errorw, Sloww, Stat, Severe, ErrorStack,
              writeDebug, writeInfo, writeError, writeSlow, writeStat,
              writeSevere, writeStack, shallLog, shallLogStat, addCaller,
              Field, h0, h1, h2, h3, h4]

/-- C2: `SetUp` runs its initialization at most once: any first call
marks the one-shot gate done, and any later call — with any other
configuration and hostname — returns success (`none`, Go `nil`)
immediately with the state untouched, re-running nothing. -/
theorem setUp_oneShot (host host' : String) (c c' : LogConf) (s : LogState) :
    (SetUp host c s).1.setupDone = true ∧
    SetUp host' c' (SetUp host c s).1 = ((SetUp host c s).1, none) :=
  ⟨setUp_setupDone host c s,
    setUp_noop host' c' (SetUp host c s).1 (setUp_setupDone host c s)⟩

theorem step_disabled (env : RuntimeEnv) (op : Op) (s : LogState)
    (h1 : s.writer = some Writer.nop) (h2 : s.disableLog = true) :
    (step env op s).1.writer = some Writer.nop ∧
    (step env op s).1.disableLog = true ∧
    ∀ r ∈ (step env op s).2, r.target = Writer.nop := by
  cases op <;>
    simp only [step, Alert, Debug, Debugf, Debugv, Debugw, Error, Errorf,
      ErrorStack, ErrorStackf, Errorv, Errorw, Info, Infof, Infov, Infow,
      Severe, Severef, Slow, Slowf, Slowv, Sloww, Stat, Statf, SetWriter,
      writeDebug, writeError, writeInfo, writeSevere, writeSlow, writeStack,
      writeStat, getWriter, h1, h2] <;>
    (try split_ifs) <;> simp_all

theorem run_disabled (env : RuntimeEnv) (ops : List Op) :
    ∀ s : LogState, s.writer = some Writer.nop → s.disableLog = true →
      (run env ops s).1.writer = some Writer.nop ∧
      (run env ops s).1.disableLog = true ∧
      ∀ r ∈ (run env ops s).2, r.target = Writer.nop := by
  induction ops with
  | nil => intro s h1 h2; simp [run, h1, h2]
  | cons op rest ih =>
    intro s h1 h2
    obtain ⟨a, b, c⟩ := step_disabled env op s h1 h2
    obtain ⟨d, e, f⟩ := ih (step env op s).1 a b
    refine ⟨by simpa [run] using d, by simpa [run] using e, ?_⟩
    intro r hr
    rcases List.mem_append.mp (by simpa [run] using hr) with h | h
    · exact c r h
    · exact f r h

/-- C4: `Disable` sets the disabled flag and installs the no-op writer;
it is idempotent; every later `SetWriter` is rejected and the no-op
writer stays in place through any volume of subsequent write and
SetWriter calls, all of which produce zero output (every forwarded
record goes to the discarding no-op backend). -/
theorem disable_terminal (s : LogState) (w : Writer) (env : RuntimeEnv)
    (ops : List Op) :
    (Disable s).disableLog = true ∧
    (Disable s).writer = some Writer.nop ∧
    SetWriter w (Disable s) = Disable s ∧
    Disable (Disable s) = Disable s ∧
    (run env ops (Disable s)).1.writer = some Writer.nop ∧
    (run env ops (Disable s)).2.filter emitsOutput = [] := by
  obtain ⟨a, b, c⟩ := run_disabled env ops (Disable s) rfl rfl
  refine ⟨rfl, rfl, by simp [SetWriter, Disable], rfl, a, ?_⟩
  rw [List.filter_eq_nil_iff]
  intro r hr
  simp [emitsOutput, c r hr]

theorem pathCleanCore_ne_empty (rooted : Bool) (segs : List String) :
    ¬ pathCleanCore rooted segs = "" := by
  unfold pathCleanCore
  cases rooted
  · simp only [Bool.false_eq_true, if_false]
    split_ifs with h
    · intro hc; exact absurd (congrArg String.data hc) (by decide)
    · exact h
  · simp only [if_true]
    intro h
    exact List.cons_ne_nil _ _ (congrArg String.data h)

theorem pathClean_ne_empty (p : String) : ¬ pathClean p = "" := by
  unfold pathClean
  split_ifs with h
  · intro hc; exact absurd (congrArg String.data hc) (by decide)
  · exact pathCleanCore_ne_empty _ _

theorem pathJoin_volume_ne_empty (p svc host : String) (hs : ¬ svc = "") :
    ¬ pathJoin [p, svc, host] = "" := by
  unfold pathJoin
  by_cases hp : p = "" <;> by_cases hh : host = "" <;>
    simp [hp, hh, hs, pathClean_ne_empty]

theorem setupWithFiles_err (c : LogConf) (s : LogState) (hp : c.Path = "") :
    setupWithFiles c s = (s, some SetupErr.logPathNotSet) := by
  simp [setupWithFiles, newFileWriter, hp]

theorem setupWithFiles_ok (c : LogConf) (s : LogState) (hp : ¬ c.Path = "") :
    setupWithFiles c s = (SetWriter (Writer.file c.Path) s, none) := by
  simp [setupWithFiles, newFileWriter, hp]

/-- C5: a first `SetUp` in file mode with an empty `Path` fails with the
descriptive log-path-not-set error; a first `SetUp` in volume mode with
an empty `ServiceName` fails with the descriptive service-name-not-set
error; in both failure cases the error is surfaced to the caller and no
writer is installed; with a non-empty service name in volume mode the
effective file path handed to the file writer is
`path.Join(Path, ServiceName, hostname)`, which for plain components
reads `Path/ServiceName/hostname`. -/
theorem setUp_mode_errors (host : String) (c : LogConf) (s : LogState)
    (hdone : s.setupDone = false) :
    (c.Mode = fileMode → c.Path = "" →
      (SetUp host c s).2 = some SetupErr.logPathNotSet ∧
      (SetUp host c s).1.writer = s.writer) ∧
    (c.Mode = volumeMode → c.ServiceName = "" →
      (SetUp host c s).2 = some SetupErr.logServiceNameNotSet ∧
      (SetUp host c s).1.writer = s.writer) ∧
    (c.Mode = volumeMode → ¬ c.ServiceName = "" → s.disableLog = false →
      (SetUp host c s).2 = none ∧
      (SetUp host c s).1.writer =
        some (Writer.file (pathJoin [c.Path, c.ServiceName, host]))) ∧
    pathJoin ["/var/log", "svc", "host-1"] = "/var/log/svc/host-1" := by
  refine ⟨fun hm hp => ?_, fun hm hs2 => ?_, fun hm hs2 hdl => ?_, by decide⟩
  · unfold SetUp
    rw [if_neg (by simp [hdone]), hm, if_pos rfl]
    rw [setupWithFiles_err c _ hp]
    refine ⟨rfl, ?_⟩
    split_ifs <;> simp [setupLogLevel_writer]
  · unfold SetUp
    rw [if_neg (by simp [hdone]), hm, if_neg (by decide), if_pos rfl]
    unfold setupWithVolume
    rw [if_pos hs2]
    refine ⟨rfl, ?_⟩
    split_ifs <;> simp [setupLogLevel_writer]
  · unfold SetUp
    rw [if_neg (by simp [hdone]), hm, if_neg (by decide), if_pos rfl]
    unfold setupWithVolume
    rw [if_neg hs2]
    rw [setupWithFiles_ok _ _ (pathJoin_volume_ne_empty c.Path c.ServiceName host hs2)]
    refine ⟨rfl, ?_⟩
    unfold SetWriter
    rw [if_pos (by split_ifs <;> simp [setupLogLevel_disableLog, hdl])]

/-- C5 witness: the theorem applied to a concrete volume-mode
configuration with a non-empty service name and a fresh (not yet set
up) state. -/
theorem setUp_mode_errors_witness :
    sampleFreshState.setupDone = false ∧
    ((sampleConf.Mode = fileMode → sampleConf.Path = "" →
      (SetUp "host-1" sampleConf sampleFreshState).2 = some SetupErr.logPathNotSet ∧
      (SetUp "host-1" sampleConf sampleFreshState).1.writer = sampleFreshState.writer) ∧
    (sampleConf.Mode = volumeMode → sampleConf.ServiceName = "" →
      (SetUp "host-1" sampleConf sampleFreshState).2 = some SetupErr.logServiceNameNotSet ∧
      (SetUp "host-1" sampleConf sampleFreshState).1.writer = sampleFreshState.writer) ∧
    (sampleConf.Mode = volumeMode → ¬ sampleConf.ServiceName = "" →
        sampleFreshState.disableLog = false →
      (SetUp "host-1" sampleConf sampleFreshState).2 = none ∧
      (SetUp "host-1" sampleConf sampleFreshState).1.writer =
        some (Writer.file (pathJoin [sampleConf.Path, sampleConf.ServiceName, "host-1"]))) ∧
    pathJoin ["/var/log", "svc", "host-1"] = "/var/log/svc/host-1") :=
  ⟨rfl, setUp_mode_errors "host-1" sampleConf sampleFreshState rfl⟩

/-- C7: `Reset` detaches the currently installed writer and returns it,
leaving no writer installed; it does not touch the one-shot setup gate,
so a `SetUp` call following a completed `SetUp` and a `Reset` is still
an immediate success with the state unchanged; and after `Reset`,
installing a custom writer with `SetWriter` and calling `Info "x"`
delivers the record to that custom writer (not to the previously
installed backend). -/
theorem reset_detaches_writer (s : LogState) (host host' : String)
    (c c' : LogConf) (w : Writer) (env : RuntimeEnv)
    (hdl : s.disableLog = false) (hlv : s.logLevel ≤ InfoLevel) :
    Reset s = ({ s with writer := none }, s.writer) ∧
    (Reset s).1.setupDone = s.setupDone ∧
    SetUp host' c' (Reset (SetUp host c s).1).1 =
      ((Reset (SetUp host c s).1).1, none) ∧
    (Info env "x" (SetWriter w (Reset s).1)).2 =
      [{ sev := .info, target := w, msg := .goString "x",
         fields := [{ Key := callerKey,
                      Value := .goString (env.getCaller callerDepth) }] }] := by
  refine ⟨rfl, rfl, ?_, ?_⟩
  · apply setUp_noop
    show (Reset (SetUp host c s).1).1.setupDone = true
    simpa [Reset] using setUp_setupDone host c s
  · simp [Reset, SetWriter, hdl, Info, writeInfo, shallLog, hlv, getWriter,
      addCaller, Field]

/-- C7 witness: the theorem applied to a concrete configured state with
a console writer installed, a custom writer and a concrete runtime
environment. -/
theorem reset_detaches_writer_witness :
    sampleState.disableLog = false ∧ sampleState.logLevel ≤ InfoLevel ∧
    (Reset sampleState = ({ sampleState with writer := none }, sampleState.writer) ∧
    (Reset sampleState).1.setupDone = sampleState.setupDone ∧
    SetUp "h" sampleConf (Reset (SetUp "h" sampleConf sampleState).1).1 =
      ((Reset (SetUp "h" sampleConf sampleState).1).1, none) ∧
    (Info sampleEnv "x" (SetWriter (Writer.custom 7) (Reset sampleState).1)).2 =
      [{ sev := .info, target := Writer.custom 7, msg := .goString "x",
         fields := [{ Key := callerKey,
                      Value := .goString (sampleEnv.getCaller callerDepth) }] }]) :=
  ⟨rfl, by decide,
    reset_detaches_writer sampleState "h" "h" sampleConf sampleConf
      (Writer.custom 7) sampleEnv rfl (by decide)⟩

end logx
